import Mathlib

/-!
Shallow embedding of the authentication and credential-lifecycle subsystem of
the food-delivery backend (src/server.js), together with proofs of the
specification claims about it.

Modelling conventions:
* Timestamps are natural numbers (milliseconds since the epoch); the current
  time `now` is an explicit parameter of every operation that reads the clock.
* The bcrypt digest stored in the `password` column is modelled by the
  `Digest` structure: `hashPassword` records the salt and the plaintext, and
  `comparePassword` compares the presented plaintext against the recorded one,
  which is exactly the observable contract of `bcrypt.hash`/`bcrypt.compare`.
* A JWT produced by `jwt.sign({userId}, secret, {expiresIn: 7d})` is modelled
  by the `SessionToken` structure carrying the payload, the expiry and the
  signing key; `verifyToken` checks the key and the expiry, which is the
  observable contract of `jwt.verify` (it rejects a token once the clock
  reaches the `exp` claim).
* The PostgreSQL `users` table is a list of `Account` records plus the next
  SERIAL id; SQL `WHERE` lookups become `List.find?`, `UPDATE ... WHERE id`
  becomes a map over the list, and the uniqueness constraint on `email` is
  checked at insert time.
* Request-body fields are `Option String` (a missing JSON field is `none`);
  the JavaScript falsiness test `!x` on such a field is `falsy`.
* Randomness (fresh single-use tokens, bcrypt salts) and the best-effort
  result of the mail collaborator are explicit parameters of the operations
  that consume them.
-/

namespace FoodDelivery

/-- The observable content of a bcrypt digest: the salt that was drawn and the
plaintext that was hashed.  `bcrypt.compare p d` succeeds exactly when `d` was
produced by hashing `p` (collisions are treated as impossible). -/
structure Digest where
  salt : Nat
  plain : String
deriving Repr, DecidableEq

/-- `hashPassword` from src/server.js: bcrypt hash with a fresh salt. -/
def hashPassword (salt : Nat) (password : String) : Digest :=
  ⟨salt, password⟩

/-- `comparePassword` from src/server.js: bcrypt compare of a plaintext
against a stored digest. -/
def comparePassword (password : String) (digest : Digest) : Bool :=
  password == digest.plain

/-- A signed session token as produced by `jwt.sign({ userId }, secret,
{ expiresIn: 7d })`: payload, issue time, expiry time and signing key. -/
structure SessionToken where
  userId : Nat
  iat : Nat
  exp : Nat
  key : String
deriving Repr, DecidableEq

/-- Seven days in milliseconds: the `expiresIn: 7d` option of `jwt.sign`. -/
def sevenDaysMs : Nat := 7 * 24 * 60 * 60 * 1000

/-- Twenty-four hours in milliseconds: the verification-token lifetime. -/
def day24Ms : Nat := 24 * 60 * 60 * 1000

/-- One hour in milliseconds: the reset-token lifetime. -/
def hourMs : Nat := 60 * 60 * 1000

/-- `generateToken` from src/server.js: sign `{userId}` with the process
secret, expiring seven days after issuance. -/
def generateToken (secret : String) (now : Nat) (userId : Nat) : SessionToken :=
  { userId := userId, iat := now, exp := now + sevenDaysMs, key := secret }

/-- `verifyToken` from src/server.js: `jwt.verify` returns the decoded
payload when the signature matches the secret and the token has not reached
its expiry instant, and the handler turns any verification error into
`null`. -/
def verifyToken (secret : String) (now : Nat) (t : SessionToken) : Option Nat :=
  if t.key == secret && now < t.exp then some t.userId else none

/-- The fallback of `process.env.JWT_SECRET || 'your-secret-key-change-in-production'`. -/
def jwtSecret (envSecret : Option String) : String :=
  match envSecret with
  | some s => if s == "" then "your-secret-key-change-in-production" else s
  | none => "your-secret-key-change-in-production"

/-- A row of the `users` table (src/server.js `CREATE TABLE users`). -/
structure Account where
  id : Nat
  name : String
  email : String
  password : Digest
  phone : Option String
  avatarUrl : Option String
  isEmailVerified : Bool
  emailVerificationToken : Option String
  emailVerificationExpires : Option Nat
  passwordResetToken : Option String
  passwordResetExpires : Option Nat
  createdAt : Nat
deriving Repr, DecidableEq

/-- The users table: the stored rows and the next SERIAL id. -/
structure Db where
  users : List Account
  nextId : Nat
deriving Repr, DecidableEq

/-- The JSON view of a user returned by the handlers. -/
structure UserView where
  id : Nat
  name : String
  email : String
  phone : Option String
  avatarUrl : Option String
  isEmailVerified : Bool
  createdAt : Nat
deriving Repr, DecidableEq

def viewOf (a : Account) : UserView :=
  { id := a.id, name := a.name, email := a.email, phone := a.phone,
    avatarUrl := a.avatarUrl, isEmailVerified := a.isEmailVerified,
    createdAt := a.createdAt }

/-- The JSON response of a handler: HTTP status plus the body fields used by
the auth endpoints (absent JSON fields are `none`/`false`). -/
structure Response where
  status : Nat
  success : Bool
  message : Option String := none
  error : Option String := none
  requiresVerification : Bool := false
  accessToken : Option SessionToken := none
  user : Option UserView := none
deriving Repr, DecidableEq

/-- JavaScript falsiness of an optional request-body string: missing or
empty. -/
def falsy : Option String → Bool
  | none => true
  | some s => s == ""

/-- The value of a nullable TIMESTAMP column in a JavaScript `<` comparison
against a `Date`: SQL NULL surfaces as `null`, which coerces to 0. -/
def expiresVal : Option Nat → Nat
  | some e => e
  | none => 0

/-- `SELECT * FROM users WHERE email = $1` (first row; email is unique). -/
def findByEmail (db : Db) (email : String) : Option Account :=
  db.users.find? (fun u => u.email == email)

/-- `SELECT ... FROM users WHERE email_verification_token = $1 AND
is_email_verified = false` (first row). -/
def findVerifyTarget (db : Db) (token : String) : Option Account :=
  db.users.find? (fun u =>
    u.emailVerificationToken == some token && u.isEmailVerified == false)

/-- `SELECT ... FROM users WHERE password_reset_token = $1` (first row). -/
def findResetTarget (db : Db) (token : String) : Option Account :=
  db.users.find? (fun u => u.passwordResetToken == some token)

/-- `SELECT ... FROM users WHERE id = $1` (first row; id is the key). -/
def findById (db : Db) (userId : Nat) : Option Account :=
  db.users.find? (fun u => u.id == userId)

/-- `UPDATE users SET ... WHERE id = $1`: one atomic statement rewriting the
matching row with `f`. -/
def updateUser (db : Db) (userId : Nat) (f : Account → Account) : Db :=
  { db with users := db.users.map (fun u => if u.id == userId then f u else u) }

/-- The test of `/^[^\s@]+@[^\s@]+\.[^\s@]+$/` needs a dot strictly inside
the domain: some later character after this position exists.  This scans a
character list for a dot that is not its last element. -/
def hasDotBeforeEnd : List Char → Bool
  | [] => false
  | [_] => false
  | c :: rest => c == '.' || hasDotBeforeEnd rest

/-- `emailRegex.test(email)` for `/^[^\s@]+@[^\s@]+\.[^\s@]+$/`: exactly one
at-sign, no whitespace, a nonempty local part, and a domain with an interior
dot. -/
def emailRegexTest (email : String) : Bool :=
  match email.toList.splitOn '@' with
  | [loc, dom] =>
    !loc.isEmpty && loc.all (fun c => !c.isWhitespace) &&
    !dom.isEmpty && dom.all (fun c => !c.isWhitespace) &&
    (match dom with
     | [] => false
     | _ :: ds => hasDotBeforeEnd ds)
  | _ => false

/-! Response texts of src/server.js, verbatim. -/

def msgFillAll : String := "Заполните все обязательные поля"
def msgBadEmail : String := "Некорректный email"
def msgPwMin6 : String := "Пароль должен содержать минимум 6 символов"
def msgDuplicateEmail : String := "Пользователь с таким email уже существует"
def msgServerError : String := "Ошибка сервера"
def msgRegisterOk : String := "Регистрация успешна. Проверьте ваш email для подтверждения."
def msgVerifyTokenMissing : String := "Токен подтверждения отсутствует"
def msgVerifyInvalid : String := "Неверный или устаревший токен подтверждения"
def msgTokenExpired : String := "Срок действия токена истек"
def msgEmailVerified : String := "Email успешно подтвержден!"
def msgUserNotFound : String := "Пользователь не найден"
def msgAlreadyVerified : String := "Email уже подтвержден"
def msgResendOk : String := "Письмо с подтверждением отправлено повторно"
def msgEnterEmail : String := "Введите email"
def msgForgotUnknown : String := "Если пользователь с таким email существует, инструкции отправлены"
def msgForgotKnown : String := "Инструкции по сбросу пароля отправлены на email"
def msgResetMissing : String := "Токен и новый пароль обязательны"
def msgResetInvalid : String := "Неверный или устаревший токен сброса пароля"
def msgPwChanged : String := "Пароль успешно изменен"
def msgEnterEmailPw : String := "Введите email и пароль"
def msgInvalidCredentials : String := "Неверный email или пароль"
def msgConfirmEmail : String := "Подтвердите ваш email перед входом"
def msgLoginOk : String := "Вход выполнен успешно"
def msgChangeMissing : String := "Текущий и новый пароль обязательны"
def msgNewPwMin6 : String := "Новый пароль должен содержать минимум 6 символов"
def msgWrongCurrent : String := "Неверный текущий пароль"

/-- The row written by the `INSERT INTO users` of `POST /register`: the
listed columns come from the query parameters, the rest take their table
defaults (`is_email_verified` false, `avatar_url` NULL, reset pair NULL,
`created_at` now, `id` from the sequence).  `phone || null` maps an absent or
empty phone to NULL. -/
def newAccount (id now salt : Nat) (ftok : String)
    (name email password : String) (phone : Option String) : Account :=
  { id := id, name := name, email := email,
    password := hashPassword salt password,
    phone := if falsy phone then none else phone,
    avatarUrl := none,
    isEmailVerified := false,
    emailVerificationToken := some ftok,
    emailVerificationExpires := some (now + day24Ms),
    passwordResetToken := none,
    passwordResetExpires := none,
    createdAt := now }

/-- `POST /register` (src/server.js, database branch).  `salt` is the bcrypt
salt drawn for this request, `ftok` the fresh verification token from
`generateRandomToken`, `sendOk` the best-effort result of the mail
collaborator (the handler ignores it), and `race` the rows that concurrent
requests insert between this handler's existence check and its own INSERT:
the store's uniqueness constraint on email judges the insert against them,
and a constraint violation lands in the `catch (dbError)` branch, which
answers with the generic 500. -/
def registerOp (secret : String) (now salt : Nat) (ftok : String)
    (sendOk : Bool) (race : List Account)
    (name email password phone : Option String) (db : Db) : Response × Db :=
  if falsy name || falsy email || falsy password then
    ({ status := 400, success := false, error := some msgFillAll }, db)
  else
    let nameV := name.getD ""
    let emailV := email.getD ""
    let passwordV := password.getD ""
    if !emailRegexTest emailV then
      ({ status := 400, success := false, error := some msgBadEmail }, db)
    else if passwordV.length < 6 then
      ({ status := 400, success := false, error := some msgPwMin6 }, db)
    else
      match findByEmail db emailV with
      | some _ =>
        ({ status := 400, success := false, error := some msgDuplicateEmail }, db)
      | none =>
        let dbAtInsert : Db := { db with users := db.users ++ race }
        if dbAtInsert.users.any (fun u => u.email == emailV) then
          ({ status := 500, success := false, error := some msgServerError },
           dbAtInsert)
        else
          let u := newAccount db.nextId now salt ftok nameV emailV passwordV phone
          ({ status := 200, success := true, message := some msgRegisterOk,
             accessToken := some (generateToken secret now u.id),
             user := some (viewOf u) },
           { users := dbAtInsert.users ++ [u], nextId := db.nextId + 1 })

/-- `GET /verify-email` (src/server.js, database branch). -/
def verifyEmailOp (now : Nat) (token : Option String) (db : Db) :
    Response × Db :=
  if falsy token then
    ({ status := 400, success := false, error := some msgVerifyTokenMissing }, db)
  else
    match findVerifyTarget db (token.getD "") with
    | none =>
      ({ status := 400, success := false, error := some msgVerifyInvalid }, db)
    | some u =>
      if expiresVal u.emailVerificationExpires < now then
        ({ status := 400, success := false, error := some msgTokenExpired }, db)
      else
        ({ status := 200, success := true, message := some msgEmailVerified },
         updateUser db u.id (fun v =>
           { v with isEmailVerified := true,
                    emailVerificationToken := none,
                    emailVerificationExpires := none }))

/-- `POST /resend-verification` (src/server.js, database branch), after the
auth middleware has resolved `userId`. -/
def resendVerificationOp (now : Nat) (ftok : String) (userId : Nat)
    (db : Db) : Response × Db :=
  match findById db userId with
  | none =>
    ({ status := 404, success := false, error := some msgUserNotFound }, db)
  | some u =>
    if u.isEmailVerified then
      ({ status := 400, success := false, error := some msgAlreadyVerified }, db)
    else
      ({ status := 200, success := true, message := some msgResendOk },
       updateUser db userId (fun v =>
         { v with emailVerificationToken := some ftok,
                  emailVerificationExpires := some (now + day24Ms) }))

/-- `POST /forgot-password` (src/server.js, database branch). -/
def forgotPasswordOp (now : Nat) (ftok : String) (email : Option String)
    (db : Db) : Response × Db :=
  if falsy email then
    ({ status := 400, success := false, error := some msgEnterEmail }, db)
  else
    match findByEmail db (email.getD "") with
    | none =>
      ({ status := 200, success := true, message := some msgForgotUnknown }, db)
    | some u =>
      ({ status := 200, success := true, message := some msgForgotKnown },
       updateUser db u.id (fun v =>
         { v with passwordResetToken := some ftok,
                  passwordResetExpires := some (now + hourMs) }))

/-- `POST /reset-password` (src/server.js, database branch). -/
def resetPasswordOp (now salt : Nat) (token password : Option String)
    (db : Db) : Response × Db :=
  if falsy token || falsy password then
    ({ status := 400, success := false, error := some msgResetMissing }, db)
  else if (password.getD "").length < 6 then
    ({ status := 400, success := false, error := some msgPwMin6 }, db)
  else
    match findResetTarget db (token.getD "") with
    | none =>
      ({ status := 400, success := false, error := some msgResetInvalid }, db)
    | some u =>
      if expiresVal u.passwordResetExpires < now then
        ({ status := 400, success := false, error := some msgTokenExpired }, db)
      else
        ({ status := 200, success := true, message := some msgPwChanged },
         updateUser db u.id (fun v =>
           { v with password := hashPassword salt (password.getD ""),
                    passwordResetToken := none,
                    passwordResetExpires := none }))

/-- `POST /login` (src/server.js, database branch).  `requireVerified` is
`process.env.REQUIRE_EMAIL_VERIFICATION === 'true'`. -/
def loginOp (secret : String) (requireVerified : Bool) (now : Nat)
    (email password : Option String) (db : Db) : Response × Db :=
  if falsy email || falsy password then
    ({ status := 400, success := false, error := some msgEnterEmailPw }, db)
  else
    match findByEmail db (email.getD "") with
    | none =>
      ({ status := 401, success := false, error := some msgInvalidCredentials }, db)
    | some u =>
      if !comparePassword (password.getD "") u.password then
        ({ status := 401, success := false, error := some msgInvalidCredentials }, db)
      else if !u.isEmailVerified && requireVerified then
        ({ status := 403, success := false, error := some msgConfirmEmail,
           requiresVerification := true }, db)
      else
        ({ status := 200, success := true, message := some msgLoginOk,
           accessToken := some (generateToken secret now u.id),
           user := some (viewOf u) }, db)

/-- `POST /change-password` (src/server.js, database branch), after the auth
middleware has resolved `userId`. -/
def changePasswordOp (salt : Nat) (userId : Nat)
    (currentPassword newPassword : Option String) (db : Db) : Response × Db :=
  if falsy currentPassword || falsy newPassword then
    ({ status := 400, success := false, error := some msgChangeMissing }, db)
  else if (newPassword.getD "").length < 6 then
    ({ status := 400, success := false, error := some msgNewPwMin6 }, db)
  else
    match findById db userId with
    | none =>
      ({ status := 404, success := false, error := some msgUserNotFound }, db)
    | some u =>
      if !comparePassword (currentPassword.getD "") u.password then
        ({ status := 401, success := false, error := some msgWrongCurrent }, db)
      else
        ({ status := 200, success := true, message := some msgPwChanged },
         updateUser db userId (fun v =>
           { v with password := hashPassword salt (newPassword.getD "") }))

/-! Concrete fixtures used to instantiate the theorems. -/

/-- A stored account with a pending verification token and a pending reset
token, both expiring at time 1000. -/
def annAccount : Account :=
  { id := 1, name := "Ann", email := "ann@x.com",
    password := hashPassword 0 "secret1", phone := none, avatarUrl := none,
    isEmailVerified := false,
    emailVerificationToken := some "vtok", emailVerificationExpires := some 1000,
    passwordResetToken := some "rtok", passwordResetExpires := some 1000,
    createdAt := 0 }

/-- A one-row users table holding `annAccount`. -/
def dbAnn : Db := { users := [annAccount], nextId := 2 }

/-- C3: a session token issued for an account id verifies back to that id at
any time from issuance to strictly before the seven-day expiry instant, and
verifies to the invalid sentinel (`none`) from the expiry instant on. -/
theorem token_round_trip (secret : String) (userId iat now : Nat) :
    (iat ≤ now → now < iat + sevenDaysMs →
      verifyToken secret now (generateToken secret iat userId) = some userId) ∧
    (iat + sevenDaysMs ≤ now →
      verifyToken secret now (generateToken secret iat userId) = none) := by
  constructor
  · intro _ h2
    simp [verifyToken, generateToken, h2]
  · intro h
    have h2 : ¬ now < iat + sevenDaysMs := by omega
    simp [verifyToken, generateToken, h2]

/-- Witness for `token_round_trip` at issuance time 0, account id 42. -/
theorem token_round_trip_witness :
    verifyToken "s" 5 (generateToken "s" 0 42) = some 42 ∧
    verifyToken "s" sevenDaysMs (generateToken "s" 0 42) = none :=
  ⟨(token_round_trip "s" 42 0 5).1 (by omega) (by decide),
   (token_round_trip "s" 42 0 sevenDaysMs).2 (by omega)⟩

/-- C4 counterexample: the two `forgot-password` responses are NOT identical
bodies — for a stored email the handler answers with one message and for an
unknown email with another, so a caller can distinguish whether the email
exists. -/
theorem forgot_password_bodies_differ :
    (forgotPasswordOp 0 "ft" (some "ann@x.com") dbAnn).1 ≠
      (forgotPasswordOp 0 "ft" (some "unknown@x.com") dbAnn).1 := by
  decide

/-- C4 amended: for any two nonempty emails the `forgot-password` responses
agree on the HTTP status, the success flag and every other body field except
the human-readable message text, which differs between the known-email and
unknown-email paths. -/
theorem forgot_password_amended (now : Nat) (ftok : String) (e1 e2 : String)
    (h1 : e1 ≠ "") (h2 : e2 ≠ "") (db : Db) :
    (forgotPasswordOp now ftok (some e1) db).1.status =
      (forgotPasswordOp now ftok (some e2) db).1.status ∧
    (forgotPasswordOp now ftok (some e1) db).1.success =
      (forgotPasswordOp now ftok (some e2) db).1.success ∧
    (forgotPasswordOp now ftok (some e1) db).1.error =
      (forgotPasswordOp now ftok (some e2) db).1.error ∧
    (forgotPasswordOp now ftok (some e1) db).1.requiresVerification =
      (forgotPasswordOp now ftok (some e2) db).1.requiresVerification ∧
    (forgotPasswordOp now ftok (some e1) db).1.accessToken =
      (forgotPasswordOp now ftok (some e2) db).1.accessToken ∧
    (forgotPasswordOp now ftok (some e1) db).1.user =
      (forgotPasswordOp now ftok (some e2) db).1.user := by
  have key : ∀ e : String, e ≠ "" → ∃ m,
      (forgotPasswordOp now ftok (some e) db).1 =
        { status := 200, success := true, message := some m } := by
    intro e he
    have hf : falsy (some e) = false := by simp [falsy, he]
    cases hfind : findByEmail db e with
    | none => exact ⟨msgForgotUnknown, by simp [forgotPasswordOp, hf, hfind]⟩
    | some u => exact ⟨msgForgotKnown, by simp [forgotPasswordOp, hf, hfind]⟩
  obtain ⟨m1, hm1⟩ := key e1 h1
  obtain ⟨m2, hm2⟩ := key e2 h2
  rw [hm1, hm2]
  exact ⟨rfl, rfl, rfl, rfl, rfl, rfl⟩

/-- Witness for `forgot_password_amended` on `dbAnn` with a stored and an
unknown email. -/
theorem forgot_password_amended_witness :
    (forgotPasswordOp 0 "ft" (some "ann@x.com") dbAnn).1.status =
      (forgotPasswordOp 0 "ft" (some "unknown@x.com") dbAnn).1.status ∧
    (forgotPasswordOp 0 "ft" (some "ann@x.com") dbAnn).1.success =
      (forgotPasswordOp 0 "ft" (some "unknown@x.com") dbAnn).1.success ∧
    (forgotPasswordOp 0 "ft" (some "ann@x.com") dbAnn).1.error =
      (forgotPasswordOp 0 "ft" (some "unknown@x.com") dbAnn).1.error ∧
    (forgotPasswordOp 0 "ft" (some "ann@x.com") dbAnn).1.requiresVerification =
      (forgotPasswordOp 0 "ft" (some "unknown@x.com") dbAnn).1.requiresVerification ∧
    (forgotPasswordOp 0 "ft" (some "ann@x.com") dbAnn).1.accessToken =
      (forgotPasswordOp 0 "ft" (some "unknown@x.com") dbAnn).1.accessToken ∧
    (forgotPasswordOp 0 "ft" (some "ann@x.com") dbAnn).1.user =
      (forgotPasswordOp 0 "ft" (some "unknown@x.com") dbAnn).1.user :=
  forgot_password_amended 0 "ft" "ann@x.com" "unknown@x.com"
    (by decide) (by decide) dbAnn

/-- C2: an attempt with a verification or reset token whose stored expiry is
in the past fails with the token-expired error and leaves the whole table
unchanged — in particular the token pair is not cleared.  The reset branch
assumes the request passed input validation (nonempty token, password of at
least six characters), which is what the handler checks before the lookup. -/
theorem expired_token_policy (now salt : Nat) (t p : String) (db : Db) :
    (∀ u, t ≠ "" → findVerifyTarget db t = some u →
      expiresVal u.emailVerificationExpires < now →
      verifyEmailOp now (some t) db =
        ({ status := 400, success := false, error := some msgTokenExpired }, db)) ∧
    (∀ u, t ≠ "" → 6 ≤ p.length → findResetTarget db t = some u →
      expiresVal u.passwordResetExpires < now →
      resetPasswordOp now salt (some t) (some p) db =
        ({ status := 400, success := false, error := some msgTokenExpired }, db)) := by
  constructor
  · intro u ht hfind hexp
    have hf : falsy (some t) = false := by simp [falsy, ht]
    simp [verifyEmailOp, hf, hfind, hexp]
  · intro u ht hp hfind hexp
    have hpne : p ≠ "" := by
      intro hh
      rw [hh] at hp
      exact absurd hp (by decide)
    have hf1 : falsy (some t) = false := by simp [falsy, ht]
    have hf2 : falsy (some p) = false := by simp [falsy, hpne]
    have hlen : ¬ p.length < 6 := by omega
    simp [resetPasswordOp, hf1, hf2, hlen, hfind, hexp]

/-- Witness for `expired_token_policy`: at time 2000 both of `annAccount`'s
tokens (expiry 1000) are expired. -/
theorem expired_token_policy_witness :
    verifyEmailOp 2000 (some "vtok") dbAnn =
      ({ status := 400, success := false, error := some msgTokenExpired }, dbAnn) ∧
    resetPasswordOp 2000 3 (some "rtok") (some "newpass1") dbAnn =
      ({ status := 400, success := false, error := some msgTokenExpired }, dbAnn) :=
  ⟨(expired_token_policy 2000 3 "vtok" "newpass1" dbAnn).1 annAccount
      (by decide) (by decide) (by decide),
   (expired_token_policy 2000 3 "rtok" "newpass1" dbAnn).2 annAccount
      (by decide) (by decide) (by decide) (by decide)⟩

/-- A reset attempt with a matching, unexpired token and a valid new password
succeeds and rewrites exactly the matching row, setting the new hash and
nulling both reset fields in the same update. -/
theorem resetPasswordOp_success (now salt : Nat) (t p : String)
    (db : Db) (u : Account)
    (ht : t ≠ "") (hp : 6 ≤ p.length)
    (hfind : findResetTarget db t = some u)
    (hexp : ¬ expiresVal u.passwordResetExpires < now) :
    resetPasswordOp now salt (some t) (some p) db =
      ({ status := 200, success := true, message := some msgPwChanged },
       { db with users := db.users.map (fun v =>
           if v.id == u.id then
             { v with password := hashPassword salt p,
                      passwordResetToken := none,
                      passwordResetExpires := none }
           else v) }) := by
  have hpne : p ≠ "" := by
    intro hh
    rw [hh] at hp
    exact absurd hp (by decide)
  have hf1 : falsy (some t) = false := by simp [falsy, ht]
  have hf2 : falsy (some p) = false := by simp [falsy, hpne]
  have hlen : ¬ p.length < 6 := by omega
  simp [resetPasswordOp, hf1, hf2, hlen, hfind, hexp, updateUser]

/-- C6: when the presented reset token exactly matches a stored
`passwordResetToken`, the token is not expired and the new password has at
least six characters, `reset-password` succeeds and the resulting table is a
single atomic rewrite of the matching row that simultaneously sets the
credential hash to the hash of the new password and nulls both
`passwordResetToken` and `passwordResetExpires`; every other row and every
other field is unchanged. -/
theorem reset_password_postcondition (now salt : Nat) (t p : String)
    (db : Db) (u : Account)
    (ht : t ≠ "") (hp : 6 ≤ p.length)
    (hfind : findResetTarget db t = some u)
    (hexp : ¬ expiresVal u.passwordResetExpires < now) :
    resetPasswordOp now salt (some t) (some p) db =
      ({ status := 200, success := true, message := some msgPwChanged },
       { db with users := db.users.map (fun v =>
           if v.id == u.id then
             { v with password := hashPassword salt p,
                      passwordResetToken := none,
                      passwordResetExpires := none }
           else v) }) :=
  resetPasswordOp_success now salt t p db u ht hp hfind hexp

/-- Witness for `reset_password_postcondition` on `dbAnn` at time 100
(reset expiry 1000). -/
theorem reset_password_postcondition_witness :
    resetPasswordOp 100 9 (some "rtok") (some "newpass1") dbAnn =
      ({ status := 200, success := true, message := some msgPwChanged },
       { dbAnn with users := dbAnn.users.map (fun v =>
           if v.id == annAccount.id then
             { v with password := hashPassword 9 "newpass1",
                      passwordResetToken := none,
                      passwordResetExpires := none }
           else v) }) :=
  reset_password_postcondition 100 9 "rtok" "newpass1" dbAnn annAccount
    (by decide) (by decide) (by decide) (by decide)

/-- A list whose filtered sublist has at most one element has at most one
member satisfying the filter. -/
theorem filter_length_le_one_unique {α : Type} {l : List α} {p : α → Bool}
    (hlen : (l.filter p).length ≤ 1) {a b : α}
    (ha : a ∈ l) (hpa : p a = true) (hb : b ∈ l) (hpb : p b = true) :
    a = b := by
  have ha2 : a ∈ l.filter p := List.mem_filter.mpr ⟨ha, hpa⟩
  have hb2 : b ∈ l.filter p := List.mem_filter.mpr ⟨hb, hpb⟩
  cases hl : l.filter p with
  | nil =>
    rw [hl] at ha2
    cases ha2
  | cons x xs =>
    rw [hl] at ha2 hb2 hlen
    cases xs with
    | nil =>
      have hax : a = x := by simpa using ha2
      have hbx : b = x := by simpa using hb2
      rw [hax, hbx]
    | cons y ys =>
      simp only [List.length_cons] at hlen
      omega

/-- C1: if `verify-email` succeeds once for a token that matches at most one
stored row, a second call with the same token fails with the
invalid-or-unknown-token error and changes nothing: the first success cleared
the token pair and set the verified flag, so the lookup (exact token match
with `is_email_verified = false`) finds no row. -/
theorem verify_email_single_use (now1 now2 : Nat) (t : String)
    (db db2 : Db) (r : Response)
    (huniq : (db.users.filter
        (fun u => u.emailVerificationToken == some t)).length ≤ 1)
    (h : verifyEmailOp now1 (some t) db = (r, db2))
    (hs : r.success = true) :
    verifyEmailOp now2 (some t) db2 =
      ({ status := 400, success := false, error := some msgVerifyInvalid },
       db2) := by
  rw [verifyEmailOp] at h
  simp only [Option.getD_some] at h
  split at h
  · injection h with h1 h2
    rw [← h1] at hs
    simp at hs
  · rename_i hft
    split at h
    · injection h with h1 h2
      rw [← h1] at hs
      simp at hs
    · rename_i u heq
      split at h
      · injection h with h1 h2
        rw [← h1] at hs
        simp at hs
      · injection h with h1 h2
        subst h2
        have hff : falsy (some t) = false := by
          revert hft
          cases falsy (some t) <;> simp
        have hu_mem : u ∈ db.users := List.mem_of_find?_eq_some heq
        have hu_pred := List.find?_some heq
        simp only [Bool.and_eq_true, beq_iff_eq] at hu_pred
        have hnone : findVerifyTarget
            (updateUser db u.id (fun v =>
              { v with isEmailVerified := true,
                       emailVerificationToken := none,
                       emailVerificationExpires := none })) t = none := by
          rw [findVerifyTarget, List.find?_eq_none]
          intro v hv
          simp only [updateUser] at hv
          obtain ⟨w, hw, hgw⟩ := List.mem_map.mp hv
          by_cases hid : (w.id == u.id) = true
          · rw [← hgw]
            simp [hid]
          · rw [← hgw]
            have hid2 : (w.id == u.id) = false := by
              revert hid
              cases w.id == u.id <;> simp
            simp only [hid2, if_false, Bool.false_eq_true]
            intro hpred
            simp only [Bool.and_eq_true, beq_iff_eq] at hpred
            have hweq : w = u := filter_length_le_one_unique huniq hw
              (by simp [hpred.1]) hu_mem (by simp [hu_pred.1])
            rw [hweq] at hid2
            simp at hid2
        simp [verifyEmailOp, hff, hnone]

/-- Witness for `verify_email_single_use`: verifying `annAccount`'s token at
time 100 succeeds, and a second call with the same token fails. -/
theorem verify_email_single_use_witness :
    verifyEmailOp 100 (some "vtok")
        (verifyEmailOp 100 (some "vtok") dbAnn).2 =
      ({ status := 400, success := false, error := some msgVerifyInvalid },
       (verifyEmailOp 100 (some "vtok") dbAnn).2) :=
  verify_email_single_use 100 100 "vtok" dbAnn
    (verifyEmailOp 100 (some "vtok") dbAnn).2
    (verifyEmailOp 100 (some "vtok") dbAnn).1
    (by decide) (by decide) (by decide)

/-- C5: an unknown email and a wrong password both produce the identical
401 invalid-credentials response (same status, same body), and the
email-not-verified response with its machine-readable `requiresVerification`
flag is produced only when the verification policy is on, the stored account
is unverified, and the presented password has already been confirmed
valid. -/
theorem login_failure_uniformity (secret : String) (requireVerified : Bool)
    (now : Nat) (db : Db) :
    (∀ eUnknown pwA eKnown pwB u,
      eUnknown ≠ "" → pwA ≠ "" → eKnown ≠ "" → pwB ≠ "" →
      findByEmail db eUnknown = none →
      findByEmail db eKnown = some u →
      comparePassword pwB u.password = false →
      loginOp secret requireVerified now (some eUnknown) (some pwA) db =
        ({ status := 401, success := false,
           error := some msgInvalidCredentials }, db) ∧
      loginOp secret requireVerified now (some eKnown) (some pwB) db =
        ({ status := 401, success := false,
           error := some msgInvalidCredentials }, db)) ∧
    (∀ email password,
      (loginOp secret requireVerified now email password db).1.requiresVerification
          = true →
      requireVerified = true ∧
      ∃ u, findByEmail db (email.getD "") = some u ∧
        comparePassword (password.getD "") u.password = true ∧
        u.isEmailVerified = false) := by
  constructor
  · intro eU pwA eK pwB u hU hA hK hB hfn hfs hcmp
    have hf1 : falsy (some eU) = false := by simp [falsy, hU]
    have hf2 : falsy (some pwA) = false := by simp [falsy, hA]
    have hf3 : falsy (some eK) = false := by simp [falsy, hK]
    have hf4 : falsy (some pwB) = false := by simp [falsy, hB]
    constructor
    · simp [loginOp, hf1, hf2, hfn]
    · simp [loginOp, hf3, hf4, hfs, hcmp]
  · intro email password h
    rw [loginOp] at h
    split at h
    · simp at h
    · split at h
      · simp at h
      · rename_i u heq
        split at h
        · simp at h
        · rename_i hcmp
          split at h
          · rename_i hver
            simp only [Bool.and_eq_true, Bool.not_eq_true'] at hver
            refine ⟨hver.2, u, heq, ?_, hver.1⟩
            revert hcmp
            cases comparePassword (password.getD "") u.password <;> simp
          · simp at h

/-- Witness for `login_failure_uniformity`: on `dbAnn`, an unknown email and
a wrong password give the same 401 response, and with the policy on and the
correct password the unverified account triggers the flagged response. -/
theorem login_failure_uniformity_witness :
    (loginOp "s" false 0 (some "no@x.com") (some "wrong1") dbAnn =
      ({ status := 401, success := false,
         error := some msgInvalidCredentials }, dbAnn) ∧
     loginOp "s" false 0 (some "ann@x.com") (some "wrong1") dbAnn =
      ({ status := 401, success := false,
         error := some msgInvalidCredentials }, dbAnn)) ∧
    (true = true ∧
     ∃ u, findByEmail dbAnn ((some "ann@x.com").getD "") = some u ∧
       comparePassword ((some "secret1").getD "") u.password = true ∧
       u.isEmailVerified = false) :=
  ⟨(login_failure_uniformity "s" false 0 dbAnn).1
      "no@x.com" "wrong1" "ann@x.com" "wrong1" annAccount
      (by decide) (by decide) (by decide) (by decide)
      (by decide) (by decide) (by decide),
   (login_failure_uniformity "s" true 0 dbAnn).2
      (some "ann@x.com") (some "secret1") (by decide)⟩

/-- C7 counterexample: when the pre-insert existence check passes but a
concurrently inserted row makes the INSERT violate the uniqueness constraint
on email, the handler's `catch (dbError)` branch answers with the generic
500 server error, not with the duplicate-email error the claim requires. -/
theorem register_race_counterexample :
    (registerOp "s" 0 3 "ft" true [annAccount] (some "Bob")
        (some "ann@x.com") (some "passw6") none
        { users := [], nextId := 1 }).1 =
      { status := 500, success := false, error := some msgServerError } ∧
    ({ status := 500, success := false, error := some msgServerError }
        : Response) ≠
      { status := 400, success := false, error := some msgDuplicateEmail } := by
  constructor
  · decide
  · decide

/-- C7 amended: a duplicate caught by the pre-insert existence check is
surfaced as the 400 duplicate-email error, while a duplicate that only the
store's uniqueness constraint catches at INSERT time (the accepted race) is
surfaced as the generic 500 server error. -/
theorem register_duplicate_email (secret : String) (now salt : Nat)
    (ftok : String) (sendOk : Bool) (race : List Account)
    (name email password : String) (phone : Option String) (db : Db)
    (hn : name ≠ "") (he : emailRegexTest email = true)
    (hp : 6 ≤ password.length) :
    (∀ u, findByEmail db email = some u →
      registerOp secret now salt ftok sendOk race (some name) (some email)
          (some password) phone db =
        ({ status := 400, success := false,
           error := some msgDuplicateEmail }, db)) ∧
    (findByEmail db email = none →
      (∃ v ∈ race, v.email = email) →
      (registerOp secret now salt ftok sendOk race (some name) (some email)
          (some password) phone db).1 =
        { status := 500, success := false, error := some msgServerError }) := by
  have hene : email ≠ "" := by
    intro hh
    rw [hh] at he
    exact absurd he (by decide)
  have hpne : password ≠ "" := by
    intro hh
    rw [hh] at hp
    exact absurd hp (by decide)
  have hf1 : falsy (some name) = false := by simp [falsy, hn]
  have hf2 : falsy (some email) = false := by simp [falsy, hene]
  have hf3 : falsy (some password) = false := by simp [falsy, hpne]
  have hlen : ¬ password.length < 6 := by omega
  constructor
  · intro u hfind
    simp [registerOp, hf1, hf2, hf3, he, hlen, hfind]
  · intro hfind hex
    obtain ⟨v, hv, hve⟩ := hex
    have hany : (db.users ++ race).any (fun u => u.email == email) = true := by
      rw [List.any_eq_true]
      exact ⟨v, List.mem_append_right _ hv, by simp [hve]⟩
    simp [registerOp, hf1, hf2, hf3, he, hlen, hfind, hany]

/-- Witness for `register_duplicate_email`: pre-check duplicate on `dbAnn`,
and a race duplicate against an empty table with a concurrent row. -/
theorem register_duplicate_email_witness :
    registerOp "s" 0 3 "ft" true [] (some "Bob") (some "ann@x.com")
        (some "passw6") none dbAnn =
      ({ status := 400, success := false,
         error := some msgDuplicateEmail }, dbAnn) ∧
    (registerOp "s" 0 3 "ft" true [annAccount] (some "Bob")
        (some "ann@x.com") (some "passw6") none
        { users := [], nextId := 1 }).1 =
      { status := 500, success := false, error := some msgServerError } :=
  ⟨(register_duplicate_email "s" 0 3 "ft" true [] "Bob" "ann@x.com" "passw6"
      none dbAnn (by decide) (by decide) (by decide)).1 annAccount (by decide),
   (register_duplicate_email "s" 0 3 "ft" true [annAccount] "Bob" "ann@x.com"
      "passw6" none { users := [], nextId := 1 }
      (by decide) (by decide) (by decide)).2
      (by decide) ⟨annAccount, by decide, by decide⟩⟩

/-- C8: registering a fresh well-formed email with a password of at least six
characters succeeds: the inserted row is unverified, stores the hash of the
password and a verification pair expiring exactly 24 hours after creation,
the response carries the new account view and a freshly issued session
token, and the result does not depend on the best-effort outcome of the
outbound verification email. -/
theorem register_success (secret : String) (now salt : Nat) (ftok : String)
    (sendOk sendOk2 : Bool) (name email password : String)
    (phone : Option String) (db : Db)
    (hn : name ≠ "") (he : emailRegexTest email = true)
    (hp : 6 ≤ password.length) (hnew : findByEmail db email = none) :
    registerOp secret now salt ftok sendOk [] (some name) (some email)
        (some password) phone db =
      ({ status := 200, success := true, message := some msgRegisterOk,
         accessToken := some (generateToken secret now db.nextId),
         user := some (viewOf
           (newAccount db.nextId now salt ftok name email password phone)) },
       { users := db.users ++
           [newAccount db.nextId now salt ftok name email password phone],
         nextId := db.nextId + 1 }) ∧
    (newAccount db.nextId now salt ftok name email password phone).isEmailVerified
      = false ∧
    (newAccount db.nextId now salt ftok name email password phone).password
      = hashPassword salt password ∧
    (newAccount db.nextId now salt ftok name email password phone).emailVerificationToken
      = some ftok ∧
    (newAccount db.nextId now salt ftok name email password phone).emailVerificationExpires
      = some (now + day24Ms) ∧
    registerOp secret now salt ftok sendOk2 [] (some name) (some email)
        (some password) phone db =
      registerOp secret now salt ftok sendOk [] (some name) (some email)
        (some password) phone db := by
  have hene : email ≠ "" := by
    intro hh
    rw [hh] at he
    exact absurd he (by decide)
  have hpne : password ≠ "" := by
    intro hh
    rw [hh] at hp
    exact absurd hp (by decide)
  have hf1 : falsy (some name) = false := by simp [falsy, hn]
  have hf2 : falsy (some email) = false := by simp [falsy, hene]
  have hf3 : falsy (some password) = false := by simp [falsy, hpne]
  have hlen : ¬ password.length < 6 := by omega
  have hany : (db.users ++ []).any (fun u => u.email == email) = false := by
    rw [List.any_eq_false]
    intro v hv
    rw [List.append_nil] at hv
    have := List.find?_eq_none.mp hnew v hv
    simpa using this
  have hex : ¬ ∃ x ∈ db.users, x.email = email := by
    intro hx
    obtain ⟨x, hxm, hxe⟩ := hx
    have := List.find?_eq_none.mp hnew x hxm
    simp [hxe] at this
  refine ⟨?_, rfl, rfl, rfl, rfl, rfl⟩
  simp [registerOp, hf1, hf2, hf3, he, hlen, hnew, hany, hex]
  rfl

/-- Witness for `register_success`: registering Bob against an empty table. -/
theorem register_success_witness :
    registerOp "s" 0 3 "ft" true [] (some "Bob") (some "bob@x.com")
        (some "passw6") none { users := [], nextId := 1 } =
      ({ status := 200, success := true, message := some msgRegisterOk,
         accessToken := some (generateToken "s" 0 1),
         user := some (viewOf
           (newAccount 1 0 3 "ft" "Bob" "bob@x.com" "passw6" none)) },
       { users := [] ++ [newAccount 1 0 3 "ft" "Bob" "bob@x.com" "passw6" none],
         nextId := 2 }) ∧
    (newAccount 1 0 3 "ft" "Bob" "bob@x.com" "passw6" none).isEmailVerified
      = false ∧
    (newAccount 1 0 3 "ft" "Bob" "bob@x.com" "passw6" none).password
      = hashPassword 3 "passw6" ∧
    (newAccount 1 0 3 "ft" "Bob" "bob@x.com" "passw6" none).emailVerificationToken
      = some "ft" ∧
    (newAccount 1 0 3 "ft" "Bob" "bob@x.com" "passw6" none).emailVerificationExpires
      = some (0 + day24Ms) ∧
    registerOp "s" 0 3 "ft" false [] (some "Bob") (some "bob@x.com")
        (some "passw6") none { users := [], nextId := 1 } =
      registerOp "s" 0 3 "ft" true [] (some "Bob") (some "bob@x.com")
        (some "passw6") none { users := [], nextId := 1 } :=
  register_success "s" 0 3 "ft" true false "Bob" "bob@x.com" "passw6" none
    { users := [], nextId := 1 }
    (by decide) (by decide) (by decide) (by decide)

/-- One request to the subsystem, with its nondeterministic inputs (clock,
bcrypt salt, fresh random token, mail outcome, policy flag) made explicit. -/
inductive Op where
  | register (now salt : Nat) (ftok secret : String) (sendOk : Bool)
      (name email password phone : Option String)
  | verifyEmail (now : Nat) (token : Option String)
  | resendVerification (now : Nat) (ftok : String) (userId : Nat)
  | forgotPassword (now : Nat) (ftok : String) (email : Option String)
  | resetPassword (now salt : Nat) (token password : Option String)
  | changePassword (salt : Nat) (userId : Nat) (current newPw : Option String)
  | login (secret : String) (requireVerified : Bool) (now : Nat)
      (email password : Option String)

/-- The table after serving one request (sequential interleaving). -/
def step (db : Db) : Op → Db
  | .register now salt ftok secret sendOk name email password phone =>
    (registerOp secret now salt ftok sendOk [] name email password phone db).2
  | .verifyEmail now token => (verifyEmailOp now token db).2
  | .resendVerification now ftok userId =>
    (resendVerificationOp now ftok userId db).2
  | .forgotPassword now ftok email => (forgotPasswordOp now ftok email db).2
  | .resetPassword now salt token password =>
    (resetPasswordOp now salt token password db).2
  | .changePassword salt userId current newPw =>
    (changePasswordOp salt userId current newPw db).2
  | .login secret requireVerified now email password =>
    (loginOp secret requireVerified now email password db).2

/-- The table after serving a sequence of requests. -/
def run (db : Db) : List Op → Db
  | [] => db
  | o :: os => run (step db o) os

/-- Both fields of the verification pair are null together or set together,
and likewise for the reset pair. -/
def accountPaired (a : Account) : Bool :=
  (a.emailVerificationToken.isSome == a.emailVerificationExpires.isSome) &&
  (a.passwordResetToken.isSome == a.passwordResetExpires.isSome)

/-- Every stored row satisfies the paired-nullability invariant. -/
def dbPaired (db : Db) : Bool := db.users.all accountPaired

/-- The empty users table the subsystem starts from. -/
def initialDb : Db := { users := [], nextId := 1 }

/-- An atomic row update whose update function preserves the pairing
invariant preserves it for the whole table. -/
theorem dbPaired_updateUser (db : Db) (uid : Nat) (f : Account → Account)
    (hf : ∀ a, accountPaired a = true → accountPaired (f a) = true)
    (h : dbPaired db = true) : dbPaired (updateUser db uid f) = true := by
  simp only [dbPaired, updateUser, List.all_eq_true] at h ⊢
  intro a ha
  obtain ⟨w, hw, rfl⟩ := List.mem_map.mp ha
  by_cases hid : (w.id == uid) = true
  · simp only [hid, if_true]
    exact hf w (h w hw)
  · have hid2 : (w.id == uid) = false := by
      revert hid
      cases w.id == uid <;> simp
    simp only [hid2, Bool.false_eq_true, if_false]
    exact h w hw

theorem dbPaired_step (db : Db) (op : Op) (h : dbPaired db = true) :
    dbPaired (step db op) = true := by
  cases op with
  | register now salt ftok secret sendOk name email password phone =>
    simp only [step, registerOp]
    split
    · exact h
    · split
      · exact h
      · split
        · exact h
        · split
          · exact h
          · split
            · simpa [dbPaired] using h
            · simp only [dbPaired] at h ⊢
              rw [List.append_nil, List.all_append]
              simp [h, accountPaired, newAccount]
  | verifyEmail now token =>
    simp only [step, verifyEmailOp]
    split
    · exact h
    · split
      · exact h
      · split
        · exact h
        · refine dbPaired_updateUser db _ _ ?_ h
          intro a ha
          simp only [accountPaired, Bool.and_eq_true, beq_iff_eq] at ha ⊢
          exact ⟨rfl, ha.2⟩
  | resendVerification now ftok userId =>
    simp only [step, resendVerificationOp]
    split
    · exact h
    · split
      · exact h
      · refine dbPaired_updateUser db _ _ ?_ h
        intro a ha
        simp only [accountPaired, Bool.and_eq_true, beq_iff_eq] at ha ⊢
        exact ⟨rfl, ha.2⟩
  | forgotPassword now ftok email =>
    simp only [step, forgotPasswordOp]
    split
    · exact h
    · split
      · exact h
      · refine dbPaired_updateUser db _ _ ?_ h
        intro a ha
        simp only [accountPaired, Bool.and_eq_true, beq_iff_eq] at ha ⊢
        exact ⟨ha.1, rfl⟩
  | resetPassword now salt token password =>
    simp only [step, resetPasswordOp]
    split
    · exact h
    · split
      · exact h
      · split
        · exact h
        · split
          · exact h
          · refine dbPaired_updateUser db _ _ ?_ h
            intro a ha
            simp only [accountPaired, Bool.and_eq_true, beq_iff_eq] at ha ⊢
            exact ⟨ha.1, rfl⟩
  | changePassword salt userId current newPw =>
    simp only [step, changePasswordOp]
    split
    · exact h
    · split
      · exact h
      · split
        · exact h
        · split
          · exact h
          · refine dbPaired_updateUser db _ _ ?_ h
            intro a ha
            simp only [accountPaired, Bool.and_eq_true, beq_iff_eq] at ha ⊢
            exact ha
  | login secret requireVerified now email password =>
    simp only [step, loginOp]
    split
    · exact h
    · cases findByEmail db (email.getD "") with
      | none => exact h
      | some u =>
        dsimp only
        by_cases hc : (!comparePassword (password.getD "") u.password) = true
        · rw [if_pos hc]
          exact h
        · rw [if_neg hc]
          by_cases hv : (!u.isEmailVerified && requireVerified) = true
          · rw [if_pos hv]
            exact h
          · rw [if_neg hv]
            exact h

theorem dbPaired_run (db : Db) (h : dbPaired db = true) (ops : List Op) :
    dbPaired (run db ops) = true := by
  induction ops generalizing db with
  | nil => exact h
  | cons o os ih => exact ih (step db o) (dbPaired_step db o h)

/-- C9: in every table state reachable from the empty table by any sequence
of the subsystem's operations, each account's verification token and expiry
are both null or both set, and likewise for the reset token and expiry:
every write touches the two fields of a pair together. -/
theorem paired_nullability_invariant (ops : List Op) :
    dbPaired (run initialDb ops) = true :=
  dbPaired_run initialDb rfl ops

/-- A change-password attempt with the correct current password and a valid
new password succeeds and rewrites only the `password` field of the matching
row. -/
theorem changePasswordOp_success (salt uid : Nat) (cur newPw : String)
    (db : Db) (u : Account)
    (hcur : cur ≠ "") (hnew : 6 ≤ newPw.length)
    (hfid : findById db uid = some u)
    (hpw : comparePassword cur u.password = true) :
    changePasswordOp salt uid (some cur) (some newPw) db =
      ({ status := 200, success := true, message := some msgPwChanged },
       updateUser db uid (fun v =>
         { v with password := hashPassword salt newPw })) := by
  have hnne : newPw ≠ "" := by
    intro hh
    rw [hh] at hnew
    exact absurd hnew (by decide)
  have hf1 : falsy (some cur) = false := by simp [falsy, hcur]
  have hf2 : falsy (some newPw) = false := by simp [falsy, hnne]
  have hlen : ¬ newPw.length < 6 := by omega
  simp [changePasswordOp, hf1, hf2, hlen, hfid, hpw]

/-- Searching a mapped list is searching the original list with the
composed predicate. -/
theorem find?_map_eq {α β : Type} (f : α → β) (p : β → Bool) (l : List α) :
    (l.map f).find? p = (l.find? (fun a => p (f a))).map f := by
  induction l with
  | nil => rfl
  | cons x xs ih =>
    cases hp : p (f x) with
    | true =>
      have hp2 : (fun a => p (f a)) x = true := hp
      rw [List.map_cons, List.find?_cons_of_pos _ hp,
        @List.find?_cons_of_pos _ (fun a => p (f a)) x xs hp2]
      rfl
    | false =>
      have hneg : ¬ p (f x) = true := by simp [hp]
      have hneg2 : ¬ (fun a => p (f a)) x = true := hneg
      rw [List.map_cons, List.find?_cons_of_neg _ hneg,
        @List.find?_cons_of_neg _ (fun a => p (f a)) x xs hneg2, ih]

/-- C10: a successful `change-password` rewrites only `credentialHash`; the
pending reset pair of the same account is untouched, so the outstanding
reset token still matches afterwards and `reset-password` can still consume
it, overwriting the just-changed password and clearing the pair. -/
theorem change_password_preserves_reset_pair
    (salt1 salt2 now2 uid : Nat) (cur newPw t p : String)
    (db : Db) (u : Account)
    (hcur : cur ≠ "") (hnew : 6 ≤ newPw.length)
    (hfid : findById db uid = some u)
    (hpw : comparePassword cur u.password = true)
    (htok : findResetTarget db t = some u)
    (ht : t ≠ "") (hp : 6 ≤ p.length)
    (hexp : ¬ expiresVal u.passwordResetExpires < now2) :
    changePasswordOp salt1 uid (some cur) (some newPw) db =
      ({ status := 200, success := true, message := some msgPwChanged },
       updateUser db uid (fun v =>
         { v with password := hashPassword salt1 newPw })) ∧
    findResetTarget
        (updateUser db uid (fun v =>
          { v with password := hashPassword salt1 newPw })) t =
      some { u with password := hashPassword salt1 newPw } ∧
    resetPasswordOp now2 salt2 (some t) (some p)
        (updateUser db uid (fun v =>
          { v with password := hashPassword salt1 newPw })) =
      ({ status := 200, success := true, message := some msgPwChanged },
       { updateUser db uid (fun v =>
           { v with password := hashPassword salt1 newPw }) with
         users := (updateUser db uid (fun v =>
           { v with password := hashPassword salt1 newPw })).users.map
             (fun v => if v.id == u.id then
               { v with password := hashPassword salt2 p,
                        passwordResetToken := none,
                        passwordResetExpires := none }
             else v) }) := by
  have hid : (u.id == uid) = true := by
    have := List.find?_some hfid
    simpa using this
  rw [findResetTarget] at htok
  have hfind2 : findResetTarget
      (updateUser db uid (fun v =>
        { v with password := hashPassword salt1 newPw })) t =
      some { u with password := hashPassword salt1 newPw } := by
    rw [findResetTarget]
    simp only [updateUser]
    rw [find?_map_eq]
    have hpred : (fun a : Account =>
        (if a.id == uid then
            { a with password := hashPassword salt1 newPw } else a).passwordResetToken
          == some t) =
        (fun a : Account => a.passwordResetToken == some t) := by
      funext a
      by_cases ha : (a.id == uid) = true
      · simp [ha]
      · have ha2 : (a.id == uid) = false := by
          revert ha
          cases a.id == uid <;> simp
        simp [ha2]
    rw [hpred, htok]
    have hid2 : u.id = uid := by simpa using hid
    simp [hid2]
  refine ⟨changePasswordOp_success salt1 uid cur newPw db u hcur hnew hfid hpw,
    hfind2, ?_⟩
  exact resetPasswordOp_success now2 salt2 t p _
    { u with password := hashPassword salt1 newPw } ht hp hfind2 hexp

/-- Witness for `change_password_preserves_reset_pair` on `dbAnn`: the
password is changed with the correct current password, the reset pair
survives, and the reset token is then consumed. -/
theorem change_password_preserves_reset_pair_witness :
    changePasswordOp 4 1 (some "secret1") (some "second6") dbAnn =
      ({ status := 200, success := true, message := some msgPwChanged },
       updateUser dbAnn 1 (fun v =>
         { v with password := hashPassword 4 "second6" })) ∧
    findResetTarget
        (updateUser dbAnn 1 (fun v =>
          { v with password := hashPassword 4 "second6" })) "rtok" =
      some { annAccount with password := hashPassword 4 "second6" } ∧
    resetPasswordOp 100 5 (some "rtok") (some "thirdpw7")
        (updateUser dbAnn 1 (fun v =>
          { v with password := hashPassword 4 "second6" })) =
      ({ status := 200, success := true, message := some msgPwChanged },
       { updateUser dbAnn 1 (fun v =>
           { v with password := hashPassword 4 "second6" }) with
         users := (updateUser dbAnn 1 (fun v =>
           { v with password := hashPassword 4 "second6" })).users.map
             (fun v => if v.id == annAccount.id then
               { v with password := hashPassword 5 "thirdpw7",
                        passwordResetToken := none,
                        passwordResetExpires := none }
             else v) }) :=
  change_password_preserves_reset_pair 4 5 100 1 "secret1" "second6"
    "rtok" "thirdpw7" dbAnn annAccount
    (by decide) (by decide) (by decide) (by decide) (by decide)
    (by decide) (by decide) (by decide)

end FoodDelivery
